import Mathlib

/-!
Shallow embedding of `src/epidemic_modelling/sird_base_model.py`.

Python floats are modelled as exact rationals (`ℚ`); the runtime errors the
code can raise (`ValueError` from the constructor, `ZeroDivisionError` from
division, `AttributeError` / `IndexError` from accessing a missing solution)
are modelled with `Except`.  The external black-box ODE solver
`scipy.integrate.solve_ivp` is modelled as an abstract function argument
satisfying its narrow call contract (right-hand side, time span, initial
state, extra args, evaluation grid).
-/

/-- Runtime errors raised by the Python code.  The spec names them
`InvalidParameterization` (= `ValueError`), `DegenerateParameters`
(= `ZeroDivisionError` during parameter derivation) and `NotSolved`
(= `AttributeError` on the missing `soln` attribute). -/
inductive SIRDError where
  | valueError
  | zeroDivisionError
  | attributeError
  | indexError
  deriving DecidableEq, Repr

/-- Result object returned by the external ODE solver: the sequence of
evaluation times and the state sample at each of them. -/
structure OdeResult where
  t : List ℚ
  y : List (ℚ × ℚ × ℚ × ℚ)
  deriving DecidableEq, Repr

/-- The attributes of a `SIRD` Python object: the six parameters set by
`__init__`, and the `population` / `y0` / `soln` attributes that only exist
after `setup` resp. `solve` ran (modelled as `Option`). -/
structure SIRD where
  R0 : ℚ
  M : ℚ
  P : ℚ
  beta : ℚ
  gamma : ℚ
  delta : ℚ
  population : Option ℚ
  y0 : Option (ℚ × ℚ × ℚ × ℚ)
  soln : Option OdeResult
  deriving DecidableEq, Repr

/-- The `initial_conditions` dictionary: keys population, cases, deaths,
recovered. -/
structure InitialConditions where
  population : ℚ
  cases : ℚ
  deaths : ℚ
  recovered : ℚ
  deriving DecidableEq, Repr

/-- The module-level `initial_conditions` dictionary literal. -/
def initial_conditions : InitialConditions :=
  { population := 60000000, cases := 3000, deaths := 80, recovered := 20 }

namespace SIRD

/-- Python constructor `SIRD.__init__`: if `R0`, `M` and `P` are all given, store them and derive
`beta = R0/P`, `gamma = (1-M)/P`, `delta = M/P` (Python raises
`ZeroDivisionError` when `P = 0`); otherwise, if `beta`, `gamma` and `delta`
are all given, store them and derive `P = 1/(gamma+delta)`, `R0 = beta*P`,
`M = delta/(gamma+delta)` (Python raises `ZeroDivisionError` when
`gamma+delta = 0`); otherwise raise `ValueError`. -/
def init (R0 M P beta gamma delta : Option ℚ) : Except SIRDError SIRD :=
  match R0, M, P with
  | some r0, some m, some p =>
      if p = 0 then .error .zeroDivisionError
      else .ok { R0 := r0, M := m, P := p,
                 beta := r0 / p, gamma := (1 - m) / p, delta := m / p,
                 population := none, y0 := none, soln := none }
  | _, _, _ =>
      match beta, gamma, delta with
      | some b, some g, some d =>
          if g + d = 0 then .error .zeroDivisionError
          else .ok { R0 := b * (1 / (g + d)), M := d / (g + d), P := 1 / (g + d),
                     beta := b, gamma := g, delta := d,
                     population := none, y0 := none, soln := none }
      | _, _, _ => .error .valueError

/-- Source method `SIRD.dSdt`. -/
def dSdt (S I beta : ℚ) : ℚ := -beta * S * I

/-- Source method `SIRD.dIdt`. -/
def dIdt (S I beta gamma delta : ℚ) : ℚ := beta * S * I - gamma * I - delta * I

/-- Source method `SIRD.dRdt`. -/
def dRdt (I gamma : ℚ) : ℚ := gamma * I

/-- Source method `SIRD.dDdt`. -/
def dDdt (I delta : ℚ) : ℚ := delta * I

/-- Source method `SIRD.eqns`: the ODE right-hand side, unpacking `y = (S, I, R, D)` and
returning the 4-tuple of derivatives. -/
def eqns (t : ℚ) (y : ℚ × ℚ × ℚ × ℚ) (beta gamma delta : ℚ) : ℚ × ℚ × ℚ × ℚ :=
  match y with
  | (S, I, _R, _D) =>
      (dSdt S I beta, dIdt S I beta gamma delta, dRdt I gamma, dDdt I delta)

/-- The initial compartment fractions computed in `SIRD.setup`:
`(initial_S, initial_I, initial_R, initial_D)`. -/
def y0_of (population cases recovered deaths : ℚ) : ℚ × ℚ × ℚ × ℚ :=
  ((population - cases - recovered - deaths) / population,
   cases / population,
   recovered / population,
   deaths / population)

/-- Source method `SIRD.setup`: stores `population` and the normalized initial state `y0`.
It performs no validation of the counts; the only error Python can raise here
is `ZeroDivisionError` when `population = 0`. -/
def setup (s : SIRD) (population cases recovered deaths : ℚ) :
    Except SIRDError SIRD :=
  if population = 0 then .error .zeroDivisionError
  else .ok { s with population := some population,
                    y0 := some (y0_of population cases recovered deaths) }

/-- Model of `np.linspace a b num`: `num` equally spaced points from `a` to `b`
inclusive (for `num = 1` the single point `a`, for `num = 0` empty). -/
def linspace (a b : ℚ) (num : ℕ) : List ℚ :=
  (List.range num).map (fun i : ℕ => a + (b - a) * (i : ℚ) / ((num : ℚ) - 1))

/-- The call contract of the external black-box ODE solver
`scipy.integrate.solve_ivp`: given the right-hand side, the time span, the
initial state, the extra `args` passed to the right-hand side, and the
`t_eval` grid, it returns an `OdeResult`. -/
def Solver : Type :=
  (ℚ → (ℚ × ℚ × ℚ × ℚ) → ℚ → ℚ → ℚ → ℚ × ℚ × ℚ × ℚ) →
  (ℚ × ℚ) → (ℚ × ℚ × ℚ × ℚ) → (ℚ × ℚ × ℚ) → List ℚ → OdeResult

/-- Default value of the `time_frame` parameter of `SIRD.solve`. -/
def default_time_frame : ℕ := 300

/-- Source method `SIRD.solve`: calls `setup` on the supplied initial conditions, builds
the time span `(0, time_frame)` and the evaluation grid
`np.linspace 0 time_frame (time_frame * 2)`, hands everything to the external
solver together with `args = (beta, gamma, delta)`, stores the result in
`soln` and returns `self`. -/
def solve (solver : Solver) (s : SIRD) (ic : InitialConditions)
    (time_frame : ℕ) : Except SIRDError SIRD :=
  match setup s ic.population ic.cases ic.recovered ic.deaths with
  | .error e => .error e
  | .ok s2 =>
      .ok { s2 with soln := some (solver eqns (0, (time_frame : ℚ))
              (y0_of ic.population ic.cases ic.recovered ic.deaths)
              (s2.beta, s2.gamma, s2.delta)
              (linspace 0 (time_frame : ℚ) (time_frame * 2))) }

/-- Source method `SIRD.solve` invoked without the `time_frame` argument uses its default
of 300 days. -/
def solve_default (solver : Solver) (s : SIRD) (ic : InitialConditions) :
    Except SIRDError SIRD :=
  solve solver s ic default_time_frame

/-- The dictionary returned by `SIRD.get_params`. -/
structure FinalParams where
  S : ℚ
  I : ℚ
  R : ℚ
  D : ℚ
  sum : ℚ
  deriving DecidableEq, Repr

/-- Source method `SIRD.get_params`: reads the last column of `soln.y` and returns it with
its sum.  Before `solve` the `soln` attribute does not exist and Python
raises `AttributeError`; on an empty trajectory indexing raises
`IndexError`. -/
def get_params (s : SIRD) : Except SIRDError FinalParams :=
  match s.soln with
  | none => .error .attributeError
  | some sol =>
      match sol.y.getLast? with
      | none => .error .indexError
      | some (S, I, R, D) => .ok { S := S, I := I, R := R, D := D, sum := S + I + R + D }

end SIRD

/-- C1: for every state tuple `(S, I, R, D)`, every time `t` and every choice
of rates `beta`, `gamma`, `delta`, the four components returned by
`SIRD.eqns` sum to exactly 0, so the analytic flow preserves `S+I+R+D`. -/
theorem SIRD.eqns_sum_zero (t S I R D beta gamma delta : ℚ) :
    (SIRD.eqns t (S, I, R, D) beta gamma delta).1 +
      (SIRD.eqns t (S, I, R, D) beta gamma delta).2.1 +
      (SIRD.eqns t (S, I, R, D) beta gamma delta).2.2.1 +
      (SIRD.eqns t (S, I, R, D) beta gamma delta).2.2.2 = 0 := by
  simp only [SIRD.eqns, SIRD.dSdt, SIRD.dIdt, SIRD.dRdt, SIRD.dDdt]
  ring

/-- C10: the right-hand side `SIRD.eqns` is independent of the time argument
`t` and of the `R` and `D` components of the state: two inputs agreeing on
`S`, `I` and the rates but differing arbitrarily in `t`, `R`, `D` yield
identical derivative tuples. -/
theorem SIRD.eqns_independent_of_t_R_D
    (t1 t2 S I R1 D1 R2 D2 beta gamma delta : ℚ) :
    SIRD.eqns t1 (S, I, R1, D1) beta gamma delta =
      SIRD.eqns t2 (S, I, R2, D2) beta gamma delta := rfl

/-- C6: constructing the model directly from rates with `gamma = 0` and
`delta = 0` fails with the division-by-zero error raised by
`P = 1/(gamma+delta)` (the spec's `DegenerateParameters` error, realized in
the code as Python's `ZeroDivisionError`); no model instance is produced. -/
theorem SIRD.init_gamma_delta_zero_fails (beta : ℚ) :
    SIRD.init none none none (some beta) (some 0) (some 0) =
        .error .zeroDivisionError ∧
      (SIRD.init none none none (some beta) (some 0) (some 0)).isOk = false := by
  constructor <;> simp [SIRD.init, Except.isOk, Except.toBool]

/-- C5: construction accepts exactly one of the two parameter groups: if
neither `{R0, M, P}` nor `{beta, gamma, delta}` is fully supplied (including
partial groups such as only `R0` and `M`), construction fails with the
`ValueError` (the spec's `InvalidParameterization`); if both groups are fully
supplied, the `{R0, M, P}` group is silently prioritized and the supplied
`beta`, `gamma`, `delta` are ignored. -/
theorem SIRD.init_exclusive_groups :
    (∀ R0 M P beta gamma delta : Option ℚ,
        (R0 = none ∨ M = none ∨ P = none) →
        (beta = none ∨ gamma = none ∨ delta = none) →
        SIRD.init R0 M P beta gamma delta = .error .valueError) ∧
      (∀ r0 m p b g d : ℚ,
        SIRD.init (some r0) (some m) (some p) (some b) (some g) (some d) =
          SIRD.init (some r0) (some m) (some p) none none none) := by
  constructor
  · intro R0 M P beta gamma delta h1 h2
    rcases R0 with _ | r0 <;> rcases M with _ | m <;> rcases P with _ | p <;>
      rcases beta with _ | b <;> rcases gamma with _ | g <;>
      rcases delta with _ | d <;> simp_all [SIRD.init]
  · intro r0 m p b g d
    rfl

/-- Witness for C5: with only `R0` and `M` supplied (a partial group),
construction fails with `ValueError`. -/
theorem SIRD.init_exclusive_groups_witness :
    SIRD.init (some 1) (some 1) none none none none = .error .valueError :=
  SIRD.init_exclusive_groups.1 (some 1) (some 1) none none none none
    (Or.inr (Or.inr rfl)) (Or.inl rfl)

/-- C7: `get_params`, called on a state whose stored solution exists, returns
exactly the last sample of the trajectory as `{S, I, R, D, sum}` with
`sum = S + I + R + D` of that sample; called before `solve` (no stored
solution) it fails with the `AttributeError` on the missing `soln` attribute
(the spec's `NotSolved`); and every successful `solve` leaves a stored
solution. -/
theorem SIRD.get_params_spec :
    (∀ (s : SIRD) (sol : OdeResult) (S I R D : ℚ),
        s.soln = some sol → sol.y.getLast? = some (S, I, R, D) →
        SIRD.get_params s =
          .ok { S := S, I := I, R := R, D := D, sum := S + I + R + D }) ∧
      (∀ s : SIRD, s.soln = none →
        SIRD.get_params s = .error .attributeError) ∧
      (∀ (solver : SIRD.Solver) (s : SIRD) (ic : InitialConditions)
          (time_frame : ℕ) (s2 : SIRD),
        SIRD.solve solver s ic time_frame = .ok s2 → s2.soln.isSome = true) := by
  refine ⟨?_, ?_, ?_⟩
  · intro s sol S I R D hs hl
    simp [SIRD.get_params, hs, hl]
  · intro s hs
    simp [SIRD.get_params, hs]
  · intro solver s ic time_frame s2 h
    unfold SIRD.solve at h
    split at h
    · exact absurd h (by simp)
    · injection h with h2
      subst h2
      simp

/-- A freshly constructed model state with unit parameters, used as a
concrete fixture by the closed evaluation theorems. -/
def SIRD.fixture : SIRD :=
  { R0 := 1, M := 1, P := 1, beta := 1, gamma := 1, delta := 1,
    population := none, y0 := none, soln := none }

/-- A one-sample trajectory used as a concrete fixture. -/
def SIRD.fixture_soln : OdeResult := { t := [0], y := [(1, 0, 0, 0)] }

/-- Witness for C7: a state holding a one-sample trajectory yields that
sample with its sum, and a freshly constructed state (no `soln`) fails with
`AttributeError`. -/
theorem SIRD.get_params_spec_witness :
    SIRD.get_params
        { SIRD.fixture with soln := some SIRD.fixture_soln } =
      .ok { S := 1, I := 0, R := 0, D := 0, sum := 1 + 0 + 0 + 0 } ∧
    SIRD.get_params SIRD.fixture = .error .attributeError :=
  ⟨SIRD.get_params_spec.1 _ SIRD.fixture_soln 1 0 0 0 rfl rfl,
   SIRD.get_params_spec.2.1 _ rfl⟩

/-- C4 counterexample: with population 100 and cases 200 (so
`cases + recovered + deaths > population`), `setup` does NOT fail: it
succeeds and stores a trajectory-ready state whose `S` fraction is the
negative value `-1` — there is no `InvalidInitialConditions` validation in
the code. -/
theorem SIRD.setup_overfull_cex :
    (100 : ℚ) < 200 + 0 + 0 ∧
      SIRD.setup SIRD.fixture 100 200 0 0 =
        .ok
          { SIRD.fixture with
              population := some 100, y0 := some (-1, 2, 0, 0) } := by
  refine ⟨by norm_num, ?_⟩
  norm_num [SIRD.setup, SIRD.y0_of]

/-- C4 (amended): `setup` performs no validation of the counts: for every
population > 0 and counts with `cases + recovered + deaths > population`, it
succeeds (no error, in particular no `InvalidInitialConditions`) and stores
the normalized state, whose `S` component is negative. -/
theorem SIRD.setup_overfull_succeeds (s : SIRD)
    (population cases recovered deaths : ℚ) (hpop : 0 < population)
    (hover : population < cases + recovered + deaths) :
    ∃ s2 : SIRD,
      SIRD.setup s population cases recovered deaths = .ok s2 ∧
        s2.y0 = some (SIRD.y0_of population cases recovered deaths) ∧
        (SIRD.y0_of population cases recovered deaths).1 < 0 := by
  refine ⟨{ s with
              population := some population,
              y0 := some (SIRD.y0_of population cases recovered deaths) },
          ?_, rfl, ?_⟩
  · simp [SIRD.setup, ne_of_gt hpop]
  · show (population - cases - recovered - deaths) / population < 0
    exact div_neg_of_neg_of_pos (by linarith) hpop

/-- Witness for the amended C4 at population 100, cases 200. -/
theorem SIRD.setup_overfull_succeeds_witness :
    ∃ s2 : SIRD,
      SIRD.setup SIRD.fixture 100 200 0 0 = .ok s2 ∧
        s2.y0 = some (SIRD.y0_of 100 200 0 0) ∧
        (SIRD.y0_of 100 200 0 0).1 < 0 :=
  SIRD.setup_overfull_succeeds SIRD.fixture 100 200 0 0 (by norm_num)
    (by norm_num)

/-- The `i`-th point of `np.linspace a b num` is `a + (b - a) * i / (num - 1)`. -/
theorem SIRD.linspace_point (a b : ℚ) (num i : ℕ) (h : i < num) :
    (SIRD.linspace a b num)[i]? = some (a + (b - a) * i / ((num : ℚ) - 1)) := by
  unfold SIRD.linspace
  rw [List.getElem?_map, List.getElem?_range h]
  rfl

/-- Model of `np.linspace` returns exactly `num` points. -/
theorem SIRD.linspace_length (a b : ℚ) (num : ℕ) :
    (SIRD.linspace a b num).length = num := by
  unfold SIRD.linspace
  rw [List.length_map, List.length_range]

/-- The `i`-th point of the evaluation grid built by `solve` is
`time_frame * i / (2 * time_frame - 1)`. -/
theorem SIRD.linspace_grid_point (time_frame i : ℕ) (h : i < time_frame * 2) :
    (SIRD.linspace 0 (time_frame : ℚ) (time_frame * 2))[i]? =
      some ((time_frame : ℚ) * i / (2 * time_frame - 1)) := by
  rw [SIRD.linspace_point _ _ _ _ h]
  congr 1
  push_cast
  ring

/-- C8: for every positive `time_frame` (and nonzero population, so `setup`
does not divide by zero), `solve` first calls `setup` on the supplied
initial conditions (storing `population` and the normalized `y0`), hands the
external solver the closed time span `(0, time_frame)` together with an
evaluation grid of exactly `2 * time_frame` equally spaced points running
from `0` to `time_frame` (consecutive difference `time_frame /
(2 * time_frame - 1)`), and on success returns the instance itself with the
stored solution (builder-style chaining, parameters unchanged); the default
time horizon is 300 days. -/
theorem SIRD.solve_grid_spec (solver : SIRD.Solver) (s : SIRD)
    (ic : InitialConditions) (time_frame : ℕ) (htf : 0 < time_frame)
    (hpop : ic.population ≠ 0) :
    SIRD.default_time_frame = 300 ∧
      SIRD.solve_default solver s ic = SIRD.solve solver s ic 300 ∧
      (∃ s2 : SIRD,
        SIRD.solve solver s ic time_frame = .ok s2 ∧
          s2.population = some ic.population ∧
          s2.y0 = some (SIRD.y0_of ic.population ic.cases ic.recovered
            ic.deaths) ∧
          s2.soln = some (solver SIRD.eqns (0, (time_frame : ℚ))
            (SIRD.y0_of ic.population ic.cases ic.recovered ic.deaths)
            (s.beta, s.gamma, s.delta)
            (SIRD.linspace 0 (time_frame : ℚ) (time_frame * 2))) ∧
          s2.beta = s.beta ∧ s2.gamma = s.gamma ∧ s2.delta = s.delta) ∧
      (SIRD.linspace 0 (time_frame : ℚ) (time_frame * 2)).length =
        2 * time_frame ∧
      (∀ i : ℕ, i < 2 * time_frame →
        (SIRD.linspace 0 (time_frame : ℚ) (time_frame * 2))[i]? =
          some ((time_frame : ℚ) * i / (2 * time_frame - 1))) ∧
      (SIRD.linspace 0 (time_frame : ℚ) (time_frame * 2)).head? = some 0 ∧
      (SIRD.linspace 0 (time_frame : ℚ) (time_frame * 2)).getLast? =
        some (time_frame : ℚ) ∧
      (∀ i : ℕ, i + 1 < 2 * time_frame →
        ∃ x y : ℚ,
          (SIRD.linspace 0 (time_frame : ℚ) (time_frame * 2))[i]? = some x ∧
          (SIRD.linspace 0 (time_frame : ℚ) (time_frame * 2))[i + 1]? =
            some y ∧
          y - x = (time_frame : ℚ) / (2 * time_frame - 1)) := by
  have h1 : (1 : ℚ) ≤ (time_frame : ℚ) := by exact_mod_cast htf
  have hne : (2 : ℚ) * (time_frame : ℚ) - 1 ≠ 0 := by
    have : (0 : ℚ) < 2 * (time_frame : ℚ) - 1 := by linarith
    exact ne_of_gt this
  refine ⟨rfl, rfl, ?_, ?_, ?_, ?_, ?_, ?_⟩
  · refine ⟨{ s with
                population := some ic.population,
                y0 := some (SIRD.y0_of ic.population ic.cases ic.recovered
                  ic.deaths),
                soln := some (solver SIRD.eqns (0, (time_frame : ℚ))
                  (SIRD.y0_of ic.population ic.cases ic.recovered ic.deaths)
                  (s.beta, s.gamma, s.delta)
                  (SIRD.linspace 0 (time_frame : ℚ) (time_frame * 2))) },
            ?_, rfl, rfl, rfl, rfl, rfl, rfl⟩
    simp [SIRD.solve, SIRD.setup, hpop]
  · rw [SIRD.linspace_length]
    omega
  · intro i hi
    exact SIRD.linspace_grid_point time_frame i (by omega)
  · rw [List.head?_eq_getElem?, SIRD.linspace_grid_point time_frame 0 (by omega)]
    norm_num
  · rw [List.getLast?_eq_getElem?, SIRD.linspace_length,
        SIRD.linspace_grid_point time_frame (time_frame * 2 - 1) (by omega)]
    have hc2 : ((time_frame * 2 - 1 : ℕ) : ℚ) = 2 * (time_frame : ℚ) - 1 := by
      rw [Nat.cast_sub (by omega)]
      push_cast
      ring
    rw [hc2, mul_div_assoc, div_self hne, mul_one]
  · intro i hi
    refine ⟨(time_frame : ℚ) * i / (2 * time_frame - 1),
            (time_frame : ℚ) * ((i : ℚ) + 1) / (2 * time_frame - 1),
            SIRD.linspace_grid_point time_frame i (by omega), ?_, ?_⟩
    · rw [SIRD.linspace_grid_point time_frame (i + 1) (by omega)]
      congr 1
      push_cast
      ring
    · rw [div_sub_div_same]
      congr 1
      ring

/-- A trivial stand-in for the external black-box solver, used only for
concrete evaluation in the closed witness theorems. -/
def SIRD.trivial_solver : SIRD.Solver := fun _ _ _ _ _ => { t := [], y := [] }

/-- Witness for C8 with the trivial solver, the unit-parameter fixture, the
module-level initial conditions and a one-day horizon. -/
theorem SIRD.solve_grid_spec_witness :
    SIRD.default_time_frame = 300 ∧
      SIRD.solve_default SIRD.trivial_solver SIRD.fixture initial_conditions =
        SIRD.solve SIRD.trivial_solver SIRD.fixture initial_conditions 300 ∧
      (∃ s2 : SIRD,
        SIRD.solve SIRD.trivial_solver SIRD.fixture initial_conditions 1 =
          .ok s2 ∧
          s2.population = some initial_conditions.population ∧
          s2.y0 = some (SIRD.y0_of initial_conditions.population
            initial_conditions.cases initial_conditions.recovered
            initial_conditions.deaths) ∧
          s2.soln = some (SIRD.trivial_solver SIRD.eqns (0, ((1 : ℕ) : ℚ))
            (SIRD.y0_of initial_conditions.population initial_conditions.cases
              initial_conditions.recovered initial_conditions.deaths)
            (SIRD.fixture.beta, SIRD.fixture.gamma, SIRD.fixture.delta)
            (SIRD.linspace 0 ((1 : ℕ) : ℚ) (1 * 2))) ∧
          s2.beta = SIRD.fixture.beta ∧ s2.gamma = SIRD.fixture.gamma ∧
          s2.delta = SIRD.fixture.delta) ∧
      (SIRD.linspace 0 ((1 : ℕ) : ℚ) (1 * 2)).length = 2 * 1 ∧
      (∀ i : ℕ, i < 2 * 1 →
        (SIRD.linspace 0 ((1 : ℕ) : ℚ) (1 * 2))[i]? =
          some (((1 : ℕ) : ℚ) * i / (2 * (1 : ℕ) - 1))) ∧
      (SIRD.linspace 0 ((1 : ℕ) : ℚ) (1 * 2)).head? = some 0 ∧
      (SIRD.linspace 0 ((1 : ℕ) : ℚ) (1 * 2)).getLast? = some ((1 : ℕ) : ℚ) ∧
      (∀ i : ℕ, i + 1 < 2 * 1 →
        ∃ x y : ℚ,
          (SIRD.linspace 0 ((1 : ℕ) : ℚ) (1 * 2))[i]? = some x ∧
          (SIRD.linspace 0 ((1 : ℕ) : ℚ) (1 * 2))[i + 1]? = some y ∧
          y - x = ((1 : ℕ) : ℚ) / (2 * (1 : ℕ) - 1)) :=
  SIRD.solve_grid_spec SIRD.trivial_solver SIRD.fixture initial_conditions 1
    (by norm_num) (by norm_num [initial_conditions])

/-- C9: whenever the model is constructed from rates with `beta ≥ 0`,
`gamma ≥ 0`, `delta ≥ 0` and `gamma + delta > 0`, the derived descriptors
satisfy the data-model ranges: `M ∈ [0, 1]`, `P > 0` and `R0 ≥ 0`. -/
theorem SIRD.init_from_rates_descriptor_ranges (beta gamma delta : ℚ)
    (hb : 0 ≤ beta) (hg : 0 ≤ gamma) (hd : 0 ≤ delta) (hgd : 0 < gamma + delta) :
    ∃ s : SIRD,
      SIRD.init none none none (some beta) (some gamma) (some delta) = .ok s ∧
        0 ≤ s.M ∧ s.M ≤ 1 ∧ 0 < s.P ∧ 0 ≤ s.R0 := by
  refine ⟨{ R0 := beta * (1 / (gamma + delta)), M := delta / (gamma + delta),
            P := 1 / (gamma + delta), beta := beta, gamma := gamma,
            delta := delta, population := none, y0 := none, soln := none },
          ?_, ?_, ?_, ?_, ?_⟩
  · simp [SIRD.init, ne_of_gt hgd]
  · exact div_nonneg hd hgd.le
  · exact (div_le_one hgd).mpr (le_add_of_nonneg_left hg)
  · exact one_div_pos.mpr hgd
  · exact mul_nonneg hb (one_div_pos.mpr hgd).le

/-- C2: for every valid rate triple (`beta > 0`, `gamma > 0`, `delta ≥ 0`,
`gamma + delta ≠ 0`), constructing the model from the rates, reading off the
derived descriptors `(R0, M, P)`, and constructing again from those
descriptors reproduces the original triple exactly (the embedding works in
exact rational arithmetic, so exactness subsumes the 1e-9 relative
tolerance). -/
theorem SIRD.rates_descriptors_roundtrip (beta gamma delta : ℚ)
    (hb : 0 < beta) (hg : 0 < gamma) (hd : 0 ≤ delta)
    (hgd : gamma + delta ≠ 0) :
    ∃ s s2 : SIRD,
      SIRD.init none none none (some beta) (some gamma) (some delta) = .ok s ∧
        SIRD.init (some s.R0) (some s.M) (some s.P) none none none = .ok s2 ∧
        s2.beta = beta ∧ s2.gamma = gamma ∧ s2.delta = delta := by
  have hP : (1 : ℚ) / (gamma + delta) ≠ 0 := one_div_ne_zero hgd
  refine ⟨{ R0 := beta * (1 / (gamma + delta)), M := delta / (gamma + delta),
            P := 1 / (gamma + delta), beta := beta, gamma := gamma,
            delta := delta, population := none, y0 := none, soln := none },
          { R0 := beta * (1 / (gamma + delta)), M := delta / (gamma + delta),
            P := 1 / (gamma + delta),
            beta := beta * (1 / (gamma + delta)) / (1 / (gamma + delta)),
            gamma := (1 - delta / (gamma + delta)) / (1 / (gamma + delta)),
            delta := delta / (gamma + delta) / (1 / (gamma + delta)),
            population := none, y0 := none, soln := none },
          ?_, ?_, ?_, ?_, ?_⟩
  · simp [SIRD.init, hgd]
  · simp [SIRD.init, hP, hgd]
  · field_simp
  · field_simp
  · field_simp

/-- Witness for C2 at the concrete rates `beta = 1/2`, `gamma = 1/4`,
`delta = 1/4`. -/
theorem SIRD.rates_descriptors_roundtrip_witness :
    ∃ s s2 : SIRD,
      SIRD.init none none none (some (1/2)) (some (1/4)) (some (1/4)) = .ok s ∧
        SIRD.init (some s.R0) (some s.M) (some s.P) none none none = .ok s2 ∧
        s2.beta = 1/2 ∧ s2.gamma = 1/4 ∧ s2.delta = 1/4 :=
  SIRD.rates_descriptors_roundtrip (1/2) (1/4) (1/4) (by norm_num)
    (by norm_num) (by norm_num) (by norm_num)

/-- C3: when the model is constructed from descriptors (`R0`, `M`, `P` all
supplied, `P ≠ 0`), the exposed rates are computed by the exact algebraic
formulas `beta = R0/P`, `gamma = (1-M)/P`, `delta = M/P`; in particular, for
`R0 = 2.5`, `M = 0.02`, `P = 5.1` this yields `beta ≈ 0.4902`,
`gamma ≈ 0.1922`, `delta ≈ 0.00392`. -/
theorem SIRD.init_from_descriptors (R0 M P : ℚ) (hP : P ≠ 0) :
    (∃ s : SIRD,
        SIRD.init (some R0) (some M) (some P) none none none = .ok s ∧
          s.beta = R0 / P ∧ s.gamma = (1 - M) / P ∧ s.delta = M / P) ∧
      (∃ s : SIRD,
        SIRD.init (some (5/2)) (some (2/100)) (some (51/10)) none none none
            = .ok s ∧
          |s.beta - 4902/10000| < 1/10000 ∧ |s.gamma - 1922/10000| < 1/10000 ∧
          |s.delta - 392/100000| < 1/100000) := by
  constructor
  · refine ⟨{ R0 := R0, M := M, P := P, beta := R0 / P, gamma := (1 - M) / P,
              delta := M / P, population := none, y0 := none, soln := none },
            ?_, rfl, rfl, rfl⟩
    simp [SIRD.init, hP]
  · refine ⟨{ R0 := 5/2, M := 2/100, P := 51/10, beta := (5/2) / (51/10),
              gamma := (1 - 2/100) / (51/10), delta := (2/100) / (51/10),
              population := none, y0 := none, soln := none },
            ?_, ?_, ?_, ?_⟩
    · simp [SIRD.init]
    · rw [abs_sub_lt_iff]; norm_num
    · rw [abs_sub_lt_iff]; norm_num
    · rw [abs_sub_lt_iff]; norm_num

/-- Witness for C3 at the concrete descriptors `R0 = 5/2`, `M = 2/100`,
`P = 51/10`. -/
theorem SIRD.init_from_descriptors_witness :
    (∃ s : SIRD,
        SIRD.init (some (5/2)) (some (2/100)) (some (51/10)) none none none
            = .ok s ∧
          s.beta = (5/2) / (51/10) ∧ s.gamma = (1 - 2/100) / (51/10) ∧
          s.delta = (2/100) / (51/10)) ∧
      (∃ s : SIRD,
        SIRD.init (some (5/2)) (some (2/100)) (some (51/10)) none none none
            = .ok s ∧
          |s.beta - 4902/10000| < 1/10000 ∧ |s.gamma - 1922/10000| < 1/10000 ∧
          |s.delta - 392/100000| < 1/100000) :=
  SIRD.init_from_descriptors (5/2) (2/100) (51/10) (by norm_num)

/-- Witness for C9 at the concrete rates `beta = 1`, `gamma = 1`,
`delta = 1`. -/
theorem SIRD.init_from_rates_descriptor_ranges_witness :
    ∃ s : SIRD,
      SIRD.init none none none (some 1) (some 1) (some 1) = .ok s ∧
        0 ≤ s.M ∧ s.M ≤ 1 ∧ 0 < s.P ∧ 0 ≤ s.R0 :=
  SIRD.init_from_rates_descriptor_ranges 1 1 1 (by norm_num) (by norm_num)
    (by norm_num) (by norm_num)
